import Mathlib

/-!
Verification of the chart-capture / vision-analysis trading assistant.

The TypeScript sources are shallowly embedded: pure logic is translated to
executable Lean definitions; interactions with the outside world (browser
sessions, the OpenAI service, the filesystem, the sharp image library,
sound subprocesses) are supplied by explicit environment records, so each
theorem quantifies over every possible behaviour of the external world.
JavaScript numbers are modelled as rationals.
-/

namespace Quant

/-! ## Cycle scheduler (`src/auto-trader.ts`, `runAutoTrader`) -/

/-- Outcome of one iteration of the `while (true)` loop in `runAutoTrader`:
`runAnalysisCycle` returned `true`, returned `false`, or the iteration threw
an unexpected error (caught by the `catch` block of the loop). -/
inductive CycleOut
  | ok
  | fail
  | err
deriving DecidableEq, Repr

/-- One iteration of the `runAutoTrader` loop, translated from the body of the
`while (true)` loop.  State is `(cycleNumber, consecutiveFailures)`.  Returns
`none` when the loop `break`s, otherwise the state for the next iteration.
`once`/`continuous` are the `--once` / `--continuous` flags; the
consecutive-failure threshold is the literal `maxConsecutiveFailures = 3`. -/
def traderStep (once continuous : Bool) (out : CycleOut) (cn cf : Nat) :
    Option (Nat × Nat) :=
  match out with
  | .ok =>
    -- success: consecutiveFailures = 0, then wait-or-break depending on flags
    if cn > 1 ∨ continuous then some (cn + 1, 0)
    else if ¬ once then some (cn + 1, 0)
    else none
  | .fail =>
    if cf + 1 ≥ 3 then none else some (cn + 1, cf + 1)
  | .err =>
    -- the catch block increments the counter but skips `cycleNumber++`
    if cf + 1 ≥ 3 then none else some (cn, cf + 1)

/-- `consecutiveFailures` stored by `traderStep` after a successful cycle:
the source always executes `consecutiveFailures = 0` on success (even on the
`--once` break path), and `cf + 1` on a failure or an unexpected error. -/
def traderStepCf (out : CycleOut) (cf : Nat) : Nat :=
  match out with
  | .ok => 0
  | .fail => cf + 1
  | .err => cf + 1

/-- Fueled unfolding of the `runAutoTrader` loop.  `outcome i` is the result
of the `i`-th loop iteration (the external world decides it); the returned
trace lists, in order, the cycle number and outcome of every iteration that
was actually started. -/
def runAutoTrader (once continuous : Bool) (outcome : Nat → CycleOut) :
    Nat → Nat → Nat → Nat → List (Nat × CycleOut)
  | 0, _, _, _ => []
  | fuel + 1, it, cn, cf =>
    let out := outcome it
    (cn, out) ::
      match traderStep once continuous out cn cf with
      | none => []
      | some st => runAutoTrader once continuous outcome fuel (it + 1) st.1 st.2

/-! ## Dynamic re-check interval (`src/auto-trader.ts`, `extractNextCheckInterval`) -/

/-- Lower clamp bound `MIN_INTERVAL` of `extractNextCheckInterval`. -/
def MIN_INTERVAL : ℚ := 2

/-- Upper clamp bound `MAX_INTERVAL` of `extractNextCheckInterval`. -/
def MAX_INTERVAL : ℚ := 60

/-- `extractNextCheckInterval`, translated from `src/auto-trader.ts`.  The
filesystem scan of `analysis-results/` is summarised by `found`: `some v`
when the most recent analysis file holds a numeric
`analysisData.finalVerdict.nextCheckMinutes` value `v`, and `none` when the
directory or file is missing, unreadable, or the field is not a number (all
those paths return `defaultInterval`). -/
def extractNextCheckInterval (defaultInterval : ℚ) (found : Option ℚ) : ℚ :=
  match found with
  | none => defaultInterval
  | some v => max MIN_INTERVAL (min MAX_INTERVAL v)

/-! ## Capture orchestrator
(`src/features/web-automation.ts` sequential loop, and the parallel
revision of the same module with `captureTimeframeScreenshot`) -/

/-- One entry of `MultiTimeframeResult.results`. -/
structure TimeframeCapture where
  timeframe : String
  success : Bool
  screenshot : Option String
  error : Option String
deriving DecidableEq, Repr

/-- Result record of `executeMultiTimeframeAutomation` (both revisions). -/
structure MultiTimeframeResult where
  success : Bool
  results : List TimeframeCapture
  totalScreenshots : Nat
  error : Option String
deriving DecidableEq, Repr

/-- The external work of one capture session (navigate, apply settings,
wait, screenshot): either a screenshot path or the thrown error message. -/
abbrev SessionOutcome := Except String String

/-- `captureTimeframeScreenshot` (parallel revision): the whole session body
is wrapped in try/catch, so a failure yields a `success:false` record with
the error message and the same timeframe label, never an omission. -/
def captureTimeframeScreenshot (outcome : SessionOutcome) (timeframe : String) :
    TimeframeCapture :=
  match outcome with
  | .ok p => { timeframe := timeframe, success := true, screenshot := some p, error := none }
  | .error e => { timeframe := timeframe, success := false, screenshot := none, error := some e }

/-- Default timeframe set used when `config.timeframes` is absent. -/
def defaultTimeframes : List String := ["5m", "15m", "1h", "2h", "6h"]

/-- Result list of the parallel `executeMultiTimeframeAutomation`:
`timeframes.map(captureTimeframeScreenshot)` joined by `Promise.all`, which
returns results in the order of the mapped array regardless of completion
order.  `oracle i` is the session outcome for the `i`-th timeframe. -/
def parallelResults (oracle : Nat → SessionOutcome) (timeframes : List String) :
    List TimeframeCapture :=
  timeframes.enum.map fun p => captureTimeframeScreenshot (oracle p.1) p.2

/-- Result list of the sequential `executeMultiTimeframeAutomation`
(`src/features/web-automation.ts`): a `for` loop over indices with
`const timeframe = timeframes[i]; if (!timeframe) continue;` — a falsy
(empty-string) label is skipped and contributes no entry at all; otherwise
the per-timeframe try/catch pushes exactly one entry. -/
def seqResults (oracle : Nat → SessionOutcome) : Nat → List String → List TimeframeCapture
  | _, [] => []
  | i, tf :: rest =>
    if tf = "" then seqResults oracle (i + 1) rest
    else captureTimeframeScreenshot (oracle i) tf :: seqResults oracle (i + 1) rest

/-- Parallel `executeMultiTimeframeAutomation`, from the parallel revision of
web-automation.  The optional crop post-step is wrapped in its own try/catch
and never alters `results`; it is treated separately (see `cropImage`). -/
def executeMultiTimeframeAutomationPar (oracle : Nat → SessionOutcome)
    (timeframesOpt : Option (List String)) : MultiTimeframeResult :=
  let timeframes := timeframesOpt.getD defaultTimeframes
  let results := parallelResults oracle timeframes
  let successCount := (results.filter (·.success)).length
  { success := decide (0 < successCount)
    results := results
    totalScreenshots := successCount
    error := none }

/-- Sequential `executeMultiTimeframeAutomation` from
`src/features/web-automation.ts` (its `totalScreenshots` counter equals the
number of successful entries). -/
def executeMultiTimeframeAutomationSeq (oracle : Nat → SessionOutcome)
    (timeframesOpt : Option (List String)) : MultiTimeframeResult :=
  let timeframes := timeframesOpt.getD defaultTimeframes
  let results := seqResults oracle 0 timeframes
  let successCount := (results.filter (·.success)).length
  { success := decide (0 < successCount)
    results := results
    totalScreenshots := successCount
    error := none }

/-! ## JSON block extraction (`src/features/vision-analysis.ts`)

Each free-text stage runs `content.match(/\x7b[\s\S]*\x7d/)`: the regex
engine starts the match at the first opening brace of the text and the
greedy `[\s\S]*` makes it end at the last closing brace of the whole text.
So the extracted block is the substring from the first opening brace through
the last closing brace, provided that closing brace comes strictly later;
otherwise there is no match and the stage throws "No JSON found". -/

/-- The substring matched by `content.match(/\x7b[\s\S]*\x7d/)`, on the
character list of the response text: drop everything before the first
opening brace, then cut after the last closing brace; a match needs at least
the two braces. -/
def extractJsonBlock (s : List Char) : Option (List Char) :=
  let fromFirst := s.dropWhile (fun c => ¬ (c = '{'))
  let block := (fromFirst.reverse.dropWhile (fun c => ¬ (c = '}'))).reverse
  if 2 ≤ block.length then some block else none

/-- The spec's words for the same step, for comparison: "a single JSON object
embedded anywhere in the free-text response (found by locating the first
balanced `\x7b...\x7d` block)".  Scans from the first opening brace and stops at
the brace that balances it. -/
def specBalancedPrefix : List Char → Nat → Option (List Char)
  | [], _ => none
  | c :: rest, depth =>
    if c = '{' then (specBalancedPrefix rest (depth + 1)).map (fun t => c :: t)
    else if c = '}' then
      if depth = 1 then some [c]
      else (specBalancedPrefix rest (depth - 1)).map (fun t => c :: t)
    else (specBalancedPrefix rest depth).map (fun t => c :: t)

/-- First balanced brace block of a text, per the spec's description of the
extraction step. -/
def specFirstBalancedBlock (s : List Char) : Option (List Char) :=
  specBalancedPrefix (s.dropWhile (fun c => ¬ (c = '{'))) 0

/-! ## Image cropping (`src/utils/image-cropping.ts`) -/

/-- `CropConfig`; a mutable JavaScript object in the source, threaded
explicitly through the functions that mutate it. -/
structure CropConfig where
  enabled : Bool
  x : Int
  y : Int
  width : Int
  height : Int
  outputSuffix : Option String
deriving DecidableEq, Repr

/-- `DEFAULT_JUPITER_CROP`. -/
def DEFAULT_JUPITER_CROP : CropConfig :=
  { enabled := true, x := 0, y := 100, width := 1450, height := 550
    outputSuffix := some "-cropped" }

/-- The filesystem and image metadata that `cropImage` consults:
`fs.existsSync` and `sharp(inputPath).metadata()` (whose width/height can be
undefined, read back as `metadata.width || 0`). -/
structure ImageFs where
  fileExists : String → Bool
  metaWidth : String → Option Int
  metaHeight : String → Option Int

/-- The "adjusting..." bound checks of `cropImage`: when the rectangle runs
past the right or bottom edge, `config.width` / `config.height` are
overwritten in place with `imageWidth - config.x` / `imageHeight - config.y`.
This is the value of the shared config object after the call. -/
def clampCropConfig (imageWidth imageHeight : Int) (config : CropConfig) : CropConfig :=
  let c1 :=
    if config.x + config.width > imageWidth then
      { config with width := imageWidth - config.x }
    else config
  if c1.y + c1.height > imageHeight then
    { c1 with height := imageHeight - c1.y }
  else c1

/-- Contract of the external `sharp(...).extract(\x7bleft, top, width, height\x7d)`
call (the sharp library raises "extract_area: bad extract area" unless the
requested area is a non-empty region inside the image). -/
def sharpExtractOk (imageWidth imageHeight left top width height : Int) : Bool :=
  decide (0 ≤ left) && decide (0 ≤ top) &&
  decide (1 ≤ width) && decide (1 ≤ height) &&
  decide (left + width ≤ imageWidth) && decide (top + height ≤ imageHeight)

/-- `cropImage`, translated from `src/utils/image-cropping.ts`.  Returns the
result of the promise (`outputPath` on success, the thrown message on
failure) together with the state of the caller's `CropConfig` object after
the call (the bound checks mutate it in place before the extract runs). -/
def cropImage (fs : ImageFs) (inputPath outputPath : String) (config : CropConfig) :
    Except String String × CropConfig :=
  if ¬ config.enabled then (.ok inputPath, config)
  else if ¬ fs.fileExists inputPath then
    (.error ("Input image not found: " ++ inputPath), config)
  else
    let imageWidth := (fs.metaWidth inputPath).getD 0
    let imageHeight := (fs.metaHeight inputPath).getD 0
    let c := clampCropConfig imageWidth imageHeight config
    if sharpExtractOk imageWidth imageHeight c.x c.y c.width c.height then
      (.ok outputPath, c)
    else
      (.error "extract_area: bad extract area", c)

/-- The `for (const timeframe of timeframes)` loop of
`cropTimeframeScreenshots`: skips missing screenshots and passes the SAME
`CropConfig` object to every `cropImage` call; a `cropImage` failure
propagates (the outer catch rethrows).  Returns the cropped paths together
with the final state of the shared config object. -/
def cropTimeframesLoop (fs : ImageFs) (screenshotsDir : String)
    (config : CropConfig) : List String → (Except String (List String)) × CropConfig
  | [] => (.ok [], config)
  | tf :: rest =>
    let inputPath := screenshotsDir ++ "/jupiter-" ++ tf ++ ".png"
    if ¬ fs.fileExists inputPath then cropTimeframesLoop fs screenshotsDir config rest
    else
      let outputPath := screenshotsDir ++ "/jupiter-" ++ tf ++
        (config.outputSuffix.getD "-cropped") ++ ".png"
      match cropImage fs inputPath outputPath config with
      | (.error e, c) => (.error e, c)
      | (.ok p, c) =>
        match cropTimeframesLoop fs screenshotsDir c rest with
        | (.error e, c2) => (.error e, c2)
        | (.ok ps, c2) => (.ok (p :: ps), c2)

/-- `cropTimeframeScreenshots`: with cropping disabled it returns the
original paths untouched, otherwise it runs the crop loop above with one
shared config object. -/
def cropTimeframeScreenshots (fs : ImageFs) (screenshotsDir : String)
    (timeframes : List String) (config : CropConfig) :
    (Except String (List String)) × CropConfig :=
  if ¬ config.enabled then
    (.ok (timeframes.map fun tf => screenshotsDir ++ "/jupiter-" ++ tf ++ ".png"), config)
  else cropTimeframesLoop fs screenshotsDir config timeframes

/-! ## Sound effects (`src/utils/sound-effects.ts`)

The fallible pieces (the `play-sound` player callback, the
`afplay`/`paplay`/`powershell` subprocesses) are modelled as `Except`-valued
fields of `SoundEnv`; every `try \x7b...\x7d catch` of the source appears as a
`tryCatchE` at exactly the same place, so the theorems about this layer
depend on where the source placed its catches, not on the model. -/

/-- `try/catch`: run the body, on a thrown error run the handler. -/
def tryCatchE (body : Except String α) (handler : String → Except String α) :
    Except String α :=
  match body with
  | .ok a => .ok a
  | .error e => handler e

/-- Trading action labels used by the sound layer. -/
inductive TradingAction
  | LONG
  | SHORT
  | HOLD
deriving DecidableEq, Repr

/-- `SoundConfig`. -/
structure SoundConfig where
  enabled : Bool
  volume : ℚ
  fallbackToSystemBeep : Bool
deriving DecidableEq, Repr

/-- Outcomes of the external sound operations and the relevant environment
variables.  `customPlay` is the `player.play` callback result for the custom
sound file; `systemPlay` is the platform subprocess result (rejects on a
non-zero exit code or a spawn error). -/
structure SoundEnv where
  platform : String
  customFileExists : TradingAction → Bool
  customPlay : TradingAction → Except String Unit
  systemPlay : TradingAction → Except String Unit
  soundEffectsVar : Option String
  soundVolumeParsed : ℚ
  soundFallbackVar : Option String

/-- `getSoundConfig` (environment-derived config; `parseFloat` of the volume
variable is external text parsing, its numeric result is `soundVolumeParsed`). -/
def getSoundConfig (senv : SoundEnv) : SoundConfig :=
  { enabled := ¬ (senv.soundEffectsVar = some "false")
    volume := senv.soundVolumeParsed
    fallbackToSystemBeep := ¬ (senv.soundFallbackVar = some "false") }

/-- `playCustomSound`: missing file reports `false`; the `player.play`
promise is awaited inside try/catch, a rejection reports `false`. -/
def playCustomSound (senv : SoundEnv) (action : TradingAction) :
    Except String Bool :=
  if ¬ senv.customFileExists action then .ok false
  else
    tryCatchE ((senv.customPlay action).bind fun _ => .ok true)
      (fun _ => .ok false)

/-- Platforms with an entry in `SYSTEM_SOUNDS`. -/
def knownSoundPlatforms : List String := ["darwin", "linux", "win32"]

/-- `playSystemSound`: an unknown platform reports `false`; for a known
platform the subprocess promise is awaited inside try/catch, a rejection
reports `false`. -/
def playSystemSound (senv : SoundEnv) (action : TradingAction) :
    Except String Bool :=
  if ¬ (senv.platform ∈ knownSoundPlatforms) then .ok false
  else
    tryCatchE ((senv.systemPlay action).bind fun _ => .ok true)
      (fun _ => .ok false)

/-- `generateBeep`: `spawn` returns synchronously (subprocess failures only
surface as later process-level events, not as promise rejections), and the
terminal-bell fallback cannot throw, so the promise level of this function
always resolves. -/
def generateBeep (_senv : SoundEnv) (_frequency _duration : ℚ) :
    Except String Unit :=
  .ok ()

/-- `playTradingSound`: custom file, then system sound, then beep fallback,
the whole cascade wrapped in the function's outer try/catch (which only
logs). -/
def playTradingSound (senv : SoundEnv) (action : TradingAction)
    (config : SoundConfig) : Except String Unit :=
  if ¬ config.enabled then .ok ()
  else
    tryCatchE
      ((playCustomSound senv action).bind fun customSuccess =>
        if customSuccess then .ok ()
        else
          (playSystemSound senv action).bind fun systemSuccess =>
            if systemSuccess then .ok ()
            else if config.fallbackToSystemBeep then
              match action with
              | .LONG => generateBeep senv 800 200
              | .SHORT => generateBeep senv 400 200
              | .HOLD => generateBeep senv 600 100
            else .ok ())
      (fun _ => .ok ())

/-- `playTradingAlert`: plays the action's sound, and a second time for
confidence of at least 80. -/
def playTradingAlert (senv : SoundEnv) (action : TradingAction)
    (confidence : ℚ) (_reason : String) : Except String Unit :=
  let config := getSoundConfig senv
  (playTradingSound senv action config).bind fun _ =>
    if confidence ≥ 80 then playTradingSound senv action config
    else .ok ()

/-! ## Vision analysis data model (`src/features/vision-analysis.ts`) -/

/-- `ChartAnalysis.trend`. -/
inductive Trend
  | bullish
  | bearish
  | neutral
  | sideways
deriving DecidableEq, Repr

/-- `indicators.volume`. -/
inductive VolumeLevel
  | high
  | medium
  | low
deriving DecidableEq, Repr

/-- `indicators.bollinger`. -/
inductive BollingerState
  | squeeze
  | expansion
  | neutral
deriving DecidableEq, Repr

/-- `indicators.momentum`. -/
inductive Momentum
  | increasing
  | decreasing
  | stable
deriving DecidableEq, Repr

/-- `ChartAnalysis.keyLevels`. -/
structure KeyLevels where
  support : Option ℚ
  resistance : Option ℚ
deriving DecidableEq, Repr

/-- `ChartAnalysis.indicators`. -/
structure ChartIndicators where
  volume : VolumeLevel
  bollinger : BollingerState
  momentum : Momentum
deriving DecidableEq, Repr

/-- `ChartAnalysis`: the per-timeframe analysis record, produced by
`JSON.parse` on the block extracted from the reasoning-service response. -/
structure ChartAnalysis where
  timeframe : String
  trend : Trend
  strength : ℚ
  keyLevels : KeyLevels
  indicators : ChartIndicators
  signals : List String
  confidence : ℚ
  analysis : String
deriving DecidableEq, Repr

/-- `TradingDecision.action`. -/
inductive DecisionAction
  | long
  | short
  | hold
  | close
deriving DecidableEq, Repr

/-- `TradingDecision.overallTrend` (narrower than `Trend`). -/
inductive OverallTrend
  | bullish
  | bearish
  | neutral
deriving DecidableEq, Repr

/-- `Omit<TradingDecision, "timeframes">`: the shape `JSON.parse` is cast to
in `makeMultiTimeframeDecision` before the analyses are attached. -/
structure TradingDecisionData where
  action : DecisionAction
  confidence : ℚ
  reasoning : String
  entryPrice : Option ℚ
  stopLoss : Option ℚ
  takeProfit : Option ℚ
  riskReward : Option ℚ
  overallTrend : OverallTrend
  marketStructure : String
  warnings : List String
deriving DecidableEq, Repr

/-- `TradingDecision`: the parsed decision tagged with the full analysis
list (`\x7b...decision, timeframes: analyses\x7d`). -/
structure TradingDecision extends TradingDecisionData where
  timeframes : List ChartAnalysis
deriving DecidableEq, Repr

/-- `riskAssessment.riskLevel` (lowercase alphabet). -/
inductive RiskLevelLower
  | low
  | medium
  | high
deriving DecidableEq, Repr

/-- `ComprehensiveAnalysis.quantitativeMetrics`. -/
structure QuantitativeMetrics where
  bullishSignals : ℚ
  bearishSignals : ℚ
  neutralSignals : ℚ
  avgConfidence : ℚ
  timeframeAlignment : ℚ
deriving DecidableEq, Repr

/-- `ComprehensiveAnalysis.riskAssessment`. -/
structure RiskAssessment where
  riskLevel : RiskLevelLower
  keyRisks : List String
  riskMitigation : List String
deriving DecidableEq, Repr

/-- `ComprehensiveAnalysis.strategicRecommendations`. -/
structure StrategicRecommendations where
  primary : String
  alternative : String
  timeHorizon : String
  positionSizing : String
deriving DecidableEq, Repr

/-- `ComprehensiveAnalysis`. -/
structure ComprehensiveAnalysis where
  executiveSummary : String
  marketOverview : String
  quantitativeMetrics : QuantitativeMetrics
  riskAssessment : RiskAssessment
  strategicRecommendations : StrategicRecommendations
  nextSteps : List String
deriving DecidableEq, Repr

/-- `TradingVerdict.action` (uppercase alphabet, schema-constrained). -/
inductive VerdictAction
  | HOLD
  | LONG
  | SHORT
deriving DecidableEq, Repr

/-- Cast of `TradingVerdict.action` to the sound layer's `TradingAction`
(`finalVerdict.action as TradingAction` in the source: identical labels). -/
def VerdictAction.toTradingAction : VerdictAction → TradingAction
  | .HOLD => .HOLD
  | .LONG => .LONG
  | .SHORT => .SHORT

/-- `TradingVerdict.timeHorizon`. -/
inductive TimeHorizon
  | short
  | medium
  | long
deriving DecidableEq, Repr

/-- `TradingVerdict.riskLevel` (uppercase alphabet). -/
inductive RiskLevelUpper
  | LOW
  | MEDIUM
  | HIGH
deriving DecidableEq, Repr

/-- `TradingVerdict`: the schema-constrained final decision. -/
structure TradingVerdict where
  action : VerdictAction
  confidence : ℚ
  positionSize : ℚ
  timeHorizon : TimeHorizon
  riskLevel : RiskLevelUpper
  keyReason : String
  entryPrice : Option ℚ
  stopLoss : Option ℚ
  takeProfit : Option ℚ
  criticalWarnings : List String
deriving DecidableEq, Repr

/-- `VisionAnalysisResult`. -/
structure VisionAnalysisResult where
  success : Bool
  tradingDecision : Option TradingDecision
  individualAnalyses : List ChartAnalysis
  comprehensiveAnalysis : Option ComprehensiveAnalysis
  finalVerdict : Option TradingVerdict
  totalCost : Option ℚ
  error : Option String
deriving DecidableEq, Repr

/-- Per-model USD cost rates per 1k tokens, from `calculateTextCost`
(decimal literals read as exact rationals). -/
def modelCostRates (model : String) : ℚ × ℚ :=
  if model = "gpt-4o" then (25 / 10000, 1 / 100)
  else if model = "gpt-4o-mini" then (15 / 100000, 6 / 10000)
  else if model = "gpt-4-turbo" then (1 / 100, 3 / 100)
  else (25 / 10000, 1 / 100)

/-- `calculateTextCost`: tokens estimated as the ceiling of chars/4. -/
def calculateTextCost (input output : String) (model : String) : ℚ :=
  let inputTokens : ℚ := ((input.length + 3) / 4 : Nat)
  let outputTokens : ℚ := ((output.length + 3) / 4 : Nat)
  let rates := modelCostRates model
  (inputTokens * rates.1 + outputTokens * rates.2) / 1000

/-! ## Vision pipeline (`src/features/vision-analysis.ts`)

The OpenAI service, the filesystem, and JavaScript's `JSON.parse` are the
external world of this module, supplied by `VisionEnv`.  Each stage returns
its `Except` outcome together with the list of reasoning-service calls it
issued, so "never calls the service" claims are about an explicit trace.
`JSON.parse(...) as T` performs no validation in TypeScript, so the per-type
parse oracles may return any value of the target shape (or `none` for a
thrown `SyntaxError`). -/

/-- One reasoning-service call. -/
inductive SvcCall
  | image (timeframe : String)
  | decision
  | synthesis
  | verdict
deriving DecidableEq, Repr

/-- `VisionAnalysisConfig` (fields relevant to the embedded logic; the
report/JSON persistence writes derived text files and is not modelled). -/
structure VisionConfig where
  screenshotsDir : Option String
  timeframes : Option (List String)
  model : Option String
  soundEffects : Option Bool
deriving Repr

/-- External world of the vision pipeline. `chatImage` keys the per-image
completion content by screenshot path; `verdictFunctionCall` is
`choices[0].message.function_call.arguments` of the schema-constrained call
(`none` when the function call or its arguments are missing).  The
`...PromptText` fields are the JavaScript-rendered prompt strings (string
formatting of numbers is external); they only feed `calculateTextCost`. -/
structure VisionEnv where
  apiKey : Bool
  fileExists : String → Bool
  chatImage : String → Option String
  parseChart : String → Option ChartAnalysis
  chatDecision : Option String
  parseDecision : String → Option TradingDecisionData
  chatComp : Option String
  parseComp : String → Option ComprehensiveAnalysis
  verdictFunctionCall : Option String
  parseVerdict : String → Option TradingVerdict
  compPromptText : String
  verdictPromptText : String
  sound : SoundEnv

/-- `analyzeChartImage`: load the image (throws when missing), send it with
the prompt, extract the brace block from the free-text answer, `JSON.parse`
it as a `ChartAnalysis`.  The parsed object's `timeframe` field is whatever
the service wrote — the code never checks it against the requested label. -/
def analyzeChartImage (env : VisionEnv) (imagePath timeframe : String) :
    Except String ChartAnalysis × List SvcCall :=
  if ¬ env.fileExists imagePath then
    (.error ("Image file not found: " ++ imagePath), [])
  else
    match env.chatImage imagePath with
    | none => (.error "No response content from OpenAI", [.image timeframe])
    | some content =>
      match extractJsonBlock content.toList with
      | none => (.error "No JSON found in response", [.image timeframe])
      | some block =>
        match env.parseChart (String.mk block) with
        | none => (.error "Unexpected token in JSON", [.image timeframe])
        | some a => (.ok a, [.image timeframe])

/-- `makeMultiTimeframeDecision`: one completion call, brace-block
extraction, `JSON.parse` as `Omit<TradingDecision,"timeframes">`, then the
analysis list is attached for traceability. -/
def makeMultiTimeframeDecision (env : VisionEnv)
    (analyses : List ChartAnalysis) :
    Except String TradingDecision × List SvcCall :=
  match env.chatDecision with
  | none => (.error "No response content from OpenAI", [.decision])
  | some content =>
    match extractJsonBlock content.toList with
    | none => (.error "No JSON found in response", [.decision])
    | some block =>
      match env.parseDecision (String.mk block) with
      | none => (.error "Unexpected token in JSON", [.decision])
      | some d => (.ok { toTradingDecisionData := d, timeframes := analyses }, [.decision])

/-- `generateComprehensiveAnalysis`: one completion call
(model default `gpt-4o-mini`), cost estimate over prompt/response text,
brace-block extraction, `JSON.parse` as `ComprehensiveAnalysis`. -/
def generateComprehensiveAnalysis (env : VisionEnv) (config : VisionConfig) :
    Except String (ComprehensiveAnalysis × ℚ) × List SvcCall :=
  match env.chatComp with
  | none => (.error "No response content from OpenAI", [.synthesis])
  | some content =>
    let cost := calculateTextCost env.compPromptText content
      (config.model.getD "gpt-4o-mini")
    match extractJsonBlock content.toList with
    | none => (.error "No JSON found in response", [.synthesis])
    | some block =>
      match env.parseComp (String.mk block) with
      | none => (.error "Unexpected token in JSON", [.synthesis])
      | some comp => (.ok (comp, cost), [.synthesis])

/-- `generateFinalVerdict`: the schema-constrained function call.  A missing
function call or missing arguments throws; `JSON.parse` of the arguments
throws on malformed text; no default verdict is ever substituted. -/
def generateFinalVerdict (env : VisionEnv) (config : VisionConfig) :
    Except String (TradingVerdict × ℚ) × List SvcCall :=
  match env.verdictFunctionCall with
  | none => (.error "No function call response from OpenAI", [.verdict])
  | some args =>
    let cost := calculateTextCost env.verdictPromptText args
      (config.model.getD "gpt-4o-mini")
    match env.parseVerdict args with
    | none => (.error "Unexpected token in JSON", [.verdict])
    | some v => (.ok (v, cost), [.verdict])

/-- Image discovery loop of `executeVisionAnalysis`: per requested
timeframe, prefer `jupiter-<tf>-cropped.png`, fall back to
`jupiter-<tf>.png`, warn and skip when both are missing. -/
def findImageFiles (env : VisionEnv) (dir : String) (timeframes : List String) :
    List (String × String) :=
  timeframes.filterMap fun tf =>
    let croppedPath := dir ++ "/jupiter-" ++ tf ++ "-cropped.png"
    let originalPath := dir ++ "/jupiter-" ++ tf ++ ".png"
    if env.fileExists croppedPath then some (croppedPath, tf)
    else if env.fileExists originalPath then some (originalPath, tf)
    else none

/-- The catch block of `executeVisionAnalysis`: a failed cycle reports the
thrown message with an empty analysis list and no decision/verdict. -/
def failureResult (e : String) : VisionAnalysisResult :=
  { success := false, tradingDecision := none, individualAnalyses := []
    comprehensiveAnalysis := none, finalVerdict := none, totalCost := none
    error := some e }

/-- `executeVisionAnalysis`: the full pipeline.  Per-image analyses run in
parallel and each is caught individually (a failure becomes `null` and is
filtered out); zero successes throw before the decision stage; the decision,
synthesis and verdict stages run sequentially; the sound alert is awaited
inside the same try, so only its guaranteed-resolving behaviour keeps it
from failing the cycle. -/
def executeVisionAnalysis (env : VisionEnv) (config : VisionConfig) :
    VisionAnalysisResult × List SvcCall :=
  let screenshotsDir := config.screenshotsDir.getD "screenshots"
  let timeframes := config.timeframes.getD defaultTimeframes
  if ¬ env.apiKey then
    (failureResult "OPENAI_API_KEY environment variable is required", [])
  else
    let imageFiles := findImageFiles env screenshotsDir timeframes
    if imageFiles.isEmpty then
      (failureResult "No chart images found. Run chart capture first.", [])
    else
      let perImage := imageFiles.map fun pt => analyzeChartImage env pt.1 pt.2
      let imageCalls := (perImage.map Prod.snd).flatten
      let individualAnalyses := perImage.filterMap fun r => r.1.toOption
      if individualAnalyses.isEmpty then
        (failureResult "No successful chart analyses", imageCalls)
      else
        match makeMultiTimeframeDecision env individualAnalyses with
        | (.error e, cs) => (failureResult e, imageCalls ++ cs)
        | (.ok tradingDecision, cs1) =>
          match generateComprehensiveAnalysis env config with
          | (.error e, cs2) => (failureResult e, imageCalls ++ cs1 ++ cs2)
          | (.ok compResult, cs2) =>
            match generateFinalVerdict env config with
            | (.error e, cs3) => (failureResult e, imageCalls ++ cs1 ++ cs2 ++ cs3)
            | (.ok verdictResult, cs3) =>
              let calls := imageCalls ++ cs1 ++ cs2 ++ cs3
              let soundRes : Except String Unit :=
                if config.soundEffects = some false then .ok ()
                else
                  playTradingAlert env.sound verdictResult.1.action.toTradingAction
                    verdictResult.1.confidence verdictResult.1.keyReason
              match soundRes with
              | .error e => (failureResult e, calls)
              | .ok _ =>
                ({ success := true
                   tradingDecision := some tradingDecision
                   individualAnalyses := individualAnalyses
                   comprehensiveAnalysis := some compResult.1
                   finalVerdict := some verdictResult.1
                   totalCost := some (compResult.2 + verdictResult.2)
                   error := none }, calls)

/-! ## Concrete sample data (environments for counterexamples and witnesses) -/

/-- A well-formed per-timeframe analysis, as the service is prompted to
produce for the 1h chart. -/
def sampleAnalysis : ChartAnalysis :=
  { timeframe := "1h", trend := .bullish, strength := 7
    keyLevels := { support := some 60000, resistance := some 65000 }
    indicators := { volume := .high, bollinger := .expansion, momentum := .increasing }
    signals := ["breakout"], confidence := 7, analysis := "strong upward move" }

/-- The same record but labelled with a timeframe outside every requested
set ("1w" is never requested): `JSON.parse` happily yields it. -/
def foreignAnalysis : ChartAnalysis :=
  { sampleAnalysis with timeframe := "1w" }

/-- `sampleAnalysis` relabelled for the 5m chart. -/
def analysis5m : ChartAnalysis :=
  { sampleAnalysis with timeframe := "5m" }

/-- A well-formed parsed trading decision. -/
def sampleDecisionData : TradingDecisionData :=
  { action := .long, confidence := 7, reasoning := "aligned"
    entryPrice := some 60500, stopLoss := some 59000, takeProfit := some 64000
    riskReward := some 2, overallTrend := .bullish
    marketStructure := "uptrend", warnings := [] }

/-- A well-formed comprehensive analysis. -/
def sampleComp : ComprehensiveAnalysis :=
  { executiveSummary := "summary", marketOverview := "overview"
    quantitativeMetrics :=
      { bullishSignals := 3, bearishSignals := 1, neutralSignals := 1
        avgConfidence := 7, timeframeAlignment := 8 }
    riskAssessment :=
      { riskLevel := .medium, keyRisks := ["volatility"]
        riskMitigation := ["tight stop"] }
    strategicRecommendations :=
      { primary := "long", alternative := "wait", timeHorizon := "days"
        positionSizing := "small" }
    nextSteps := ["monitor"] }

/-- A well-formed schema-constrained verdict (high confidence, so the alert
plays twice). -/
def sampleVerdict : TradingVerdict :=
  { action := .LONG, confidence := 85, positionSize := 10
    timeHorizon := .medium, riskLevel := .MEDIUM
    keyReason := "multi-timeframe alignment", entryPrice := some 60500
    stopLoss := some 59000, takeProfit := some 64000, criticalWarnings := [] }

/-- A hostile sound environment: the custom file is missing, every player
subprocess fails. -/
def sampleSound : SoundEnv :=
  { platform := "linux", customFileExists := fun _ => false
    customPlay := fun _ => .error "play failed"
    systemPlay := fun _ => .error "Sound failed with code 1"
    soundEffectsVar := none, soundVolumeParsed := 7 / 10
    soundFallbackVar := none }

/-- All-default pipeline configuration. -/
def cfgDefault : VisionConfig :=
  { screenshotsDir := none, timeframes := none, model := none, soundEffects := none }

/-- Pipeline configuration requesting the single timeframe "5m". -/
def cfgOneTimeframe : VisionConfig :=
  { screenshotsDir := none, timeframes := some ["5m"], model := none
    soundEffects := none }

/-- A service response with prose around one JSON object and a stray closing
brace later in the prose. -/
def exC5Response : String := "Sure! \x7b\x22a\x22:1\x7d trailing brace \x7d end"

/-- What the greedy regex actually captures from `exC5Response`: first
opening brace through the LAST closing brace. -/
def exC5Greedy : String := "\x7b\x22a\x22:1\x7d trailing brace \x7d"

/-- The first balanced brace block of `exC5Response` — the JSON object. -/
def exC5Balanced : String := "\x7b\x22a\x22:1\x7d"

/-- Environment for the extraction counterexample: the 1h screenshot exists,
the service answers with `exC5Response`, and `JSON.parse` behaves as the
real one does on the two candidate strings (the balanced block is valid
JSON; the greedy capture has trailing garbage, so parsing throws). -/
def envC5 : VisionEnv :=
  { apiKey := true
    fileExists := fun p => p == "screenshots/jupiter-1h.png"
    chatImage := fun _ => some exC5Response
    parseChart := fun s => if s == exC5Balanced then some sampleAnalysis else none
    chatDecision := none, parseDecision := fun _ => none
    chatComp := none, parseComp := fun _ => none
    verdictFunctionCall := none, parseVerdict := fun _ => none
    compPromptText := "", verdictPromptText := "", sound := sampleSound }

/-- Environment for the timeframe-invariant counterexample: only the 5m
screenshot exists, every stage parses, but the service labels its analysis
"1w". -/
def envC7 : VisionEnv :=
  { apiKey := true
    fileExists := fun p => p == "screenshots/jupiter-5m.png"
    chatImage := fun _ => some "\x7bjson\x7d"
    parseChart := fun _ => some foreignAnalysis
    chatDecision := some "\x7bjson\x7d"
    parseDecision := fun _ => some sampleDecisionData
    chatComp := some "\x7bjson\x7d"
    parseComp := fun _ => some sampleComp
    verdictFunctionCall := some "\x7bjson\x7d"
    parseVerdict := fun _ => some sampleVerdict
    compPromptText := "", verdictPromptText := "", sound := sampleSound }

/-- `envC7` with a service that echoes the prompted timeframe. -/
def envC7ok : VisionEnv :=
  { envC7 with parseChart := fun _ => some analysis5m }

/-- `envC7` but the per-image completion has no content: every timeframe
analysis fails. -/
def envC4 : VisionEnv :=
  { envC7 with chatImage := fun _ => none }

/-- `envC7` but the schema-constrained call returns no function call. -/
def envC8 : VisionEnv :=
  { envC7 with verdictFunctionCall := none }

/-- A filesystem whose images are all 1450x550 and always present. -/
def fsCrop : ImageFs :=
  { fileExists := fun _ => true
    metaWidth := fun _ => some 1450
    metaHeight := fun _ => some 550 }

/-- A crop rectangle whose origin lies beyond the right edge of a 1450-wide
image: the "clamped" width `1450 - 2000` is negative. -/
def cropOutOfOrigin : CropConfig :=
  { enabled := true, x := 2000, y := 0, width := 100, height := 50
    outputSuffix := some "-cropped" }

/-- A crop rectangle exceeding a 1450x550 image on both axes, with its
origin inside the image. -/
def cropExceeding : CropConfig :=
  { enabled := true, x := 0, y := 100, width := 1500, height := 550
    outputSuffix := some "-cropped" }

/-- Decidable equality for `Except` results (both components decidable). -/
instance {ε α : Type} [DecidableEq ε] [DecidableEq α] : DecidableEq (Except ε α) :=
  fun a b =>
    match a, b with
    | .ok x, .ok y =>
      match decEq x y with
      | isTrue h => isTrue (h ▸ rfl)
      | isFalse h => isFalse fun hc => h (Except.ok.inj hc)
    | .error x, .error y =>
      match decEq x y with
      | isTrue h => isTrue (h ▸ rfl)
      | isFalse h => isFalse fun hc => h (Except.error.inj hc)
    | .ok _, .error _ => isFalse fun hc => Except.noConfusion hc
    | .error _, .ok _ => isFalse fun hc => Except.noConfusion hc

/-! ## Theorems -/

/-- C3: for a numeric `nextCheckMinutes` value `v` in the latest analysis
file, `extractNextCheckInterval` returns `max 2 (min 60 v)`; in particular
120 is clamped to 60, 1 is raised to 2, and 13 passes through unchanged,
for every default interval. -/
theorem extractNextCheckInterval_clamps (d v : ℚ) :
    extractNextCheckInterval d (some v) = max 2 (min 60 v) ∧
    MIN_INTERVAL ≤ extractNextCheckInterval d (some v) ∧
    extractNextCheckInterval d (some v) ≤ MAX_INTERVAL ∧
    extractNextCheckInterval d (some 120) = 60 ∧
    extractNextCheckInterval d (some 1) = 2 ∧
    extractNextCheckInterval d (some 13) = 13 := by
  refine ⟨rfl, le_max_left _ _, ?_, ?_, ?_, ?_⟩
  · have h60 : MIN_INTERVAL ≤ MAX_INTERVAL := by norm_num [MIN_INTERVAL, MAX_INTERVAL]
    exact max_le h60 (min_le_left _ _)
  · show max MIN_INTERVAL (min MAX_INTERVAL 120) = 60
    norm_num [MIN_INTERVAL, MAX_INTERVAL]
  · show max MIN_INTERVAL (min MAX_INTERVAL 1) = 2
    norm_num [MIN_INTERVAL, MAX_INTERVAL]
  · show max MIN_INTERVAL (min MAX_INTERVAL 13) = 13
    norm_num [MIN_INTERVAL, MAX_INTERVAL]

/-- When every cycle outcome is a failure or an unexpected error, the number
of loop iterations actually started is `min fuel (3 - cf)`: the circuit
breaker allows exactly the iterations that bring the consecutive-failure
counter up to the hard-coded threshold 3. -/
lemma runAutoTrader_allFail_length (once continuous : Bool)
    (outcome : Nat → CycleOut) (hfail : ∀ i, outcome i ≠ .ok) :
    ∀ fuel it cn cf, cf < 3 →
      (runAutoTrader once continuous outcome fuel it cn cf).length =
        min fuel (3 - cf) := by
  intro fuel
  induction fuel with
  | zero => intro it cn cf _; simp [runAutoTrader]
  | succ n ih =>
    intro it cn cf hcf
    simp only [runAutoTrader]
    cases hout : outcome it with
    | ok => exact absurd hout (hfail it)
    | fail =>
      simp only [traderStep]
      by_cases h3 : cf + 1 ≥ 3
      · simp only [h3, if_pos]
        simp only [List.length_cons, List.length_nil]
        omega
      · simp only [h3, if_neg, not_false_iff]
        simp only [List.length_cons]
        rw [ih (it + 1) (cn + 1) (cf + 1) (by omega)]
        omega
    | err =>
      simp only [traderStep]
      by_cases h3 : cf + 1 ≥ 3
      · simp only [h3, if_pos]
        simp only [List.length_cons, List.length_nil]
        omega
      · simp only [h3, if_neg, not_false_iff]
        simp only [List.length_cons]
        rw [ih (it + 1) cn (cf + 1) (by omega)]
        omega

/-- C2: in `runAutoTrader`, every successful cycle stores 0 into the
consecutive-failure counter (both in the assignment `traderStepCf` and in
the state passed to the next iteration), and with the hard-coded threshold 3
a run whose cycles all fail executes exactly three cycles — the loop breaks
without starting a fourth. -/
theorem runAutoTrader_circuit_breaker (once continuous : Bool)
    (outcome : Nat → CycleOut) (fuel it cn : Nat)
    (hfail : ∀ i, outcome i ≠ .ok) (hfuel : 3 ≤ fuel) :
    (runAutoTrader once continuous outcome fuel it cn 0).length = 3 ∧
    (∀ cf, traderStepCf .ok cf = 0) ∧
    (∀ cn2 cf2 st, traderStep once continuous .ok cn2 cf2 = some st →
      st.2 = 0) := by
  refine ⟨?_, fun _ => rfl, ?_⟩
  · rw [runAutoTrader_allFail_length once continuous outcome hfail fuel it cn 0
      (by omega)]
    omega
  · intro cn2 cf2 st hst
    simp only [traderStep] at hst
    by_cases h1 : cn2 > 1 ∨ continuous = true
    · simp only [h1, if_pos] at hst
      cases hst; rfl
    · simp only [h1, if_neg, not_false_iff] at hst
      by_cases h2 : once = true
      · simp [h2] at hst
      · simp only [h2] at hst
        simp at hst
        cases hst; rfl

/-- Witness for C2 at a concrete run: three all-failing cycles with
`--continuous` semantics execute exactly three iterations. -/
theorem runAutoTrader_circuit_breaker_witness :
    (runAutoTrader false false (fun _ => CycleOut.fail) 5 0 1 0).length = 3 :=
  (runAutoTrader_circuit_breaker false false (fun _ => CycleOut.fail) 5 0 1
    (fun _ h => CycleOut.noConfusion h) (by norm_num)).1

/-- The per-timeframe record always carries the requested label. -/
lemma captureTimeframeScreenshot_timeframe (o : SessionOutcome) (tf : String) :
    (captureTimeframeScreenshot o tf).timeframe = tf := by
  cases o <;> rfl

/-- A failed session record carries an error message; a successful one a
screenshot path. -/
lemma captureTimeframeScreenshot_shape (o : SessionOutcome) (tf : String) :
    ((captureTimeframeScreenshot o tf).success = false →
      (captureTimeframeScreenshot o tf).error.isSome) ∧
    ((captureTimeframeScreenshot o tf).success = true →
      (captureTimeframeScreenshot o tf).screenshot.isSome) := by
  cases o <;> simp [captureTimeframeScreenshot]

/-- The parallel result list is labelled by the requested timeframes in
caller order. -/
lemma parallelResults_map_timeframe (oracle : Nat → SessionOutcome)
    (tfs : List String) :
    (parallelResults oracle tfs).map (·.timeframe) = tfs := by
  unfold parallelResults
  rw [List.map_map]
  have hfun : ((fun r : TimeframeCapture => r.timeframe) ∘
      fun p : Nat × String => captureTimeframeScreenshot (oracle p.1) p.2) =
      Prod.snd := by
    funext p
    exact captureTimeframeScreenshot_timeframe (oracle p.1) p.2
  rw [hfun, List.enum_map_snd]

/-- The sequential result list is labelled by the requested timeframes in
caller order, provided no label is the empty string. -/
lemma seqResults_map_timeframe (oracle : Nat → SessionOutcome) :
    ∀ (tfs : List String) (i : Nat), (∀ tf ∈ tfs, tf ≠ "") →
      (seqResults oracle i tfs).map (·.timeframe) = tfs := by
  intro tfs
  induction tfs with
  | nil => intro i _; rfl
  | cons tf rest ih =>
    intro i hne
    have htf : tf ≠ "" := hne tf (List.mem_cons_self tf rest)
    simp only [seqResults, htf, if_neg, not_false_iff, List.map_cons]
    rw [captureTimeframeScreenshot_timeframe,
      ih (i + 1) (fun t ht => hne t (List.mem_cons_of_mem tf ht))]

/-- Every entry of a result list of either orchestrator implementation is a
`captureTimeframeScreenshot` record. -/
lemma mem_results_shape (r : TimeframeCapture)
    (h : ∃ o tf, r = captureTimeframeScreenshot o tf) :
    (r.success = false → r.error.isSome) ∧
    (r.success = true → r.screenshot.isSome) := by
  obtain ⟨o, tf, rfl⟩ := h
  exact captureTimeframeScreenshot_shape o tf

/-- Entries of `parallelResults` are capture records. -/
lemma mem_parallelResults (oracle : Nat → SessionOutcome) (tfs : List String)
    (r : TimeframeCapture) (hr : r ∈ parallelResults oracle tfs) :
    ∃ o tf, r = captureTimeframeScreenshot o tf := by
  unfold parallelResults at hr
  obtain ⟨p, _, rfl⟩ := List.mem_map.mp hr
  exact ⟨oracle p.1, p.2, rfl⟩

/-- Entries of `seqResults` are capture records. -/
lemma mem_seqResults (oracle : Nat → SessionOutcome) :
    ∀ (tfs : List String) (i : Nat) (r : TimeframeCapture),
      r ∈ seqResults oracle i tfs →
      ∃ o tf, r = captureTimeframeScreenshot o tf := by
  intro tfs
  induction tfs with
  | nil => intro i r hr; simp [seqResults] at hr
  | cons tf rest ih =>
    intro i r hr
    by_cases htf : tf = ""
    · simp only [seqResults, htf, if_pos] at hr
      exact ih (i + 1) r hr
    · simp only [seqResults, htf, if_neg, not_false_iff, List.mem_cons] at hr
      rcases hr with hr | hr
      · exact ⟨oracle i, tf, hr⟩
      · exact ih (i + 1) r hr

/-- C1 (amended): the parallel `executeMultiTimeframeAutomation` returns,
for EVERY requested list, one entry per timeframe, labelled in caller order;
the sequential implementation does the same provided no requested label is
the empty string (it skips falsy labels); in both, a failed session
contributes a `success:false` entry with an error message and a successful
one carries a screenshot path — never an omission. -/
theorem executeMultiTimeframeAutomation_order (oracle : Nat → SessionOutcome)
    (tfs : List String) (hne : ∀ tf ∈ tfs, tf ≠ "") :
    (∀ tfs2, (executeMultiTimeframeAutomationPar oracle (some tfs2)).results.map
      (·.timeframe) = tfs2) ∧
    (executeMultiTimeframeAutomationSeq oracle (some tfs)).results.map
      (·.timeframe) = tfs ∧
    (∀ r ∈ (executeMultiTimeframeAutomationPar oracle (some tfs)).results,
      (r.success = false → r.error.isSome) ∧
      (r.success = true → r.screenshot.isSome)) ∧
    (∀ r ∈ (executeMultiTimeframeAutomationSeq oracle (some tfs)).results,
      (r.success = false → r.error.isSome) ∧
      (r.success = true → r.screenshot.isSome)) := by
  refine ⟨?_, ?_, ?_, ?_⟩
  · intro tfs2
    exact parallelResults_map_timeframe oracle tfs2
  · exact seqResults_map_timeframe oracle tfs 0 hne
  · intro r hr
    exact mem_results_shape r (mem_parallelResults oracle tfs r hr)
  · intro r hr
    exact mem_results_shape r (mem_seqResults oracle tfs 0 r hr)

/-- Witness for C1 at a concrete input: two timeframes, first session times
out, second succeeds; both entries are present in caller order. -/
theorem executeMultiTimeframeAutomation_order_witness :
    (executeMultiTimeframeAutomationSeq
      (fun i => if i = 0 then .error "Navigation timeout" else .ok "screenshots/jupiter-1h.png")
      (some ["5m", "1h"])).results.map (·.timeframe) = ["5m", "1h"] :=
  (executeMultiTimeframeAutomation_order
    (fun i => if i = 0 then .error "Navigation timeout" else .ok "screenshots/jupiter-1h.png")
    ["5m", "1h"] (by decide)).2.1

/-- Counterexample for C1 as stated: the sequential implementation, given
the list `["5m", "", "1h"]` (as produced by `--timeframes 5m,,1h`), skips
the empty label entirely: the result list has two entries, not three, and
no entry is labelled with the second requested timeframe. -/
theorem executeMultiTimeframeAutomationSeq_counterexample :
    (executeMultiTimeframeAutomationSeq (fun _ => .ok "screenshots/jupiter-x.png")
      (some ["5m", "", "1h"])).results.length = 2 ∧
    (["5m", "", "1h"] : List String).length = 3 ∧
    (executeMultiTimeframeAutomationSeq (fun _ => .ok "screenshots/jupiter-x.png")
      (some ["5m", "", "1h"])).results.map (·.timeframe) = ["5m", "1h"] := by
  decide

/-- Dropping over an append whose first part satisfies the predicate
throughout continues into the second part. -/
lemma dropWhile_append_of_all {α : Type} (p : α → Bool) :
    ∀ l1 l2 : List α, (∀ a ∈ l1, p a = true) →
      (l1 ++ l2).dropWhile p = l2.dropWhile p := by
  intro l1
  induction l1 with
  | nil => intro l2 _; rfl
  | cons a t ih =>
    intro l2 h
    have ha : p a = true := h a (List.mem_cons_self a t)
    rw [List.cons_append, List.dropWhile_cons_of_pos ha,
      ih l2 (fun x hx => h x (List.mem_cons_of_mem a hx))]

/-- C5 counterexample: on a response whose prose contains a stray closing
brace after the single embedded JSON object, the code's extraction
(`extractJsonBlock`, the greedy regex) captures from the first opening brace
to the LAST closing brace — not the first balanced block the spec
describes — and the trailing garbage makes `JSON.parse` throw, so
`analyzeChartImage` fails on a text that does contain a single JSON object
embedded in prose. -/
theorem analyzeChartImage_greedy_counterexample :
    extractJsonBlock exC5Response.toList ≠ specFirstBalancedBlock exC5Response.toList ∧
    extractJsonBlock exC5Response.toList = some exC5Greedy.toList ∧
    specFirstBalancedBlock exC5Response.toList = some exC5Balanced.toList ∧
    (analyzeChartImage envC5 "screenshots/jupiter-1h.png" "1h").1 =
      .error "Unexpected token in JSON" := by
  decide

/-- C5 (amended): the extraction used by `analyzeChartImage` takes the
substring from the first opening brace through the last closing brace of the
whole response.  When the prose around the single embedded object contains
no brace characters, that substring is exactly the embedded object; and a
text with no opening brace or no closing brace yields no block at all
(`analyzeChartImage` then throws "No JSON found in response"). -/
theorem extractJsonBlock_embedded (pre obj post : List Char)
    (hpre : ∀ c ∈ pre, c ≠ '{' ∧ c ≠ '}')
    (hpost : ∀ c ∈ post, c ≠ '{' ∧ c ≠ '}')
    (hhead : obj.head? = some '{')
    (hlast : obj.getLast? = some '}') :
    extractJsonBlock (pre ++ obj ++ post) = some obj ∧
    (∀ s : List Char, ('{' ∉ s ∨ '}' ∉ s) → extractJsonBlock s = none) := by
  constructor
  · obtain ⟨c0, obj1, rfl⟩ : ∃ c0 obj1, obj = c0 :: obj1 := by
      cases obj with
      | nil => simp at hhead
      | cons c t => exact ⟨c, t, rfl⟩
    have hc0 : c0 = '{' := by simpa using hhead
    subst hc0
    have hobj1 : obj1 ≠ [] := by
      intro h
      subst h
      simp [List.getLast?] at hlast
    obtain ⟨r0, rev1, hrev⟩ : ∃ r0 rev1, ('{' :: obj1).reverse = r0 :: rev1 := by
      cases hr : ('{' :: obj1).reverse with
      | nil => exact absurd (List.reverse_eq_nil_iff.mp hr) (by simp)
      | cons a t => exact ⟨a, t, rfl⟩
    have hr0 : r0 = '}' := by
      have hh := List.head?_reverse ('{' :: obj1)
      rw [hrev, hlast] at hh
      simpa using hh
    subst hr0
    have h1 : (pre ++ ('{' :: obj1) ++ post).dropWhile (fun c => ¬ (c = '{')) =
        '{' :: (obj1 ++ post) := by
      rw [List.append_assoc,
        dropWhile_append_of_all _ pre (('{' :: obj1) ++ post)
          (fun a ha => by simpa using (hpre a ha).1),
        List.cons_append, List.dropWhile_cons_of_neg (by simp)]
    have h2 : ('{' :: (obj1 ++ post)).reverse.dropWhile (fun c => ¬ (c = '}')) =
        '}' :: rev1 := by
      rw [← List.cons_append, List.reverse_append,
        dropWhile_append_of_all _ post.reverse (('{' :: obj1).reverse)
          (fun a ha => by simpa using (hpost a (by simpa using ha)).2),
        hrev, List.dropWhile_cons_of_neg (by simp)]
    have h3 : ('}' :: rev1).reverse = '{' :: obj1 := by
      rw [← hrev, List.reverse_reverse]
    have hlen : 2 ≤ ('{' :: obj1).length := by
      cases obj1 with
      | nil => exact absurd rfl hobj1
      | cons b t => simp [List.length_cons]
    simp only [extractJsonBlock, h1, h2, h3, hlen, if_pos]
  · intro s hs
    rcases hs with hs | hs
    · have h1 : s.dropWhile (fun c => ¬ (c = '{')) = [] :=
        List.dropWhile_eq_nil_iff.mpr fun x hx => by
          simp only [decide_eq_true_eq]
          intro he
          exact hs (he ▸ hx)
      simp only [decide_not] at h1
      simp [extractJsonBlock, h1]
    · have h1 : (s.dropWhile (fun c => ¬ (c = '{'))).reverse.dropWhile
          (fun c => ¬ (c = '}')) = [] := by
        apply List.dropWhile_eq_nil_iff.mpr
        intro x hx
        have hxs : x ∈ s := by
          have hx2 : x ∈ s.dropWhile (fun c => ¬ (c = '{')) := by
            simpa using hx
          exact List.Sublist.mem hx2 (List.dropWhile_sublist _)
        simp only [decide_eq_true_eq]
        intro he
        exact hs (he ▸ hxs)
      simp only [decide_not] at h1
      simp [extractJsonBlock, h1]

/-- Witness for C5 at a concrete response: prose without braces around one
JSON object is extracted exactly. -/
theorem extractJsonBlock_embedded_witness :
    extractJsonBlock ("Sure, here it is: ".toList ++
      "\x7b\x22trend\x22:\x22bullish\x22\x7d".toList ++ " Hope this helps.".toList) =
      some ("\x7b\x22trend\x22:\x22bullish\x22\x7d".toList) :=
  (extractJsonBlock_embedded "Sure, here it is: ".toList
    "\x7b\x22trend\x22:\x22bullish\x22\x7d".toList " Hope this helps.".toList
    (by decide) (by decide) (by decide) (by decide)).1

/-- The bound checks only ever touch `width` and `height`; `enabled`, `x`,
`y` and `outputSuffix` survive a `cropImage` call untouched. -/
lemma clampCropConfig_fields (W H : Int) (c : CropConfig) :
    (clampCropConfig W H c).enabled = c.enabled ∧
    (clampCropConfig W H c).x = c.x ∧
    (clampCropConfig W H c).y = c.y ∧
    (clampCropConfig W H c).outputSuffix = c.outputSuffix ∧
    (clampCropConfig W H c).width =
      (if c.x + c.width > W then W - c.x else c.width) ∧
    (clampCropConfig W H c).height =
      (if c.y + c.height > H then H - c.y else c.height) := by
  cases c with
  | mk en x y w h suf =>
    simp only [clampCropConfig]
    by_cases h1 : x + w > W <;> by_cases h2 : y + h > H <;> simp [h1, h2]

/-- Clamping is idempotent: a rectangle already shrunk to the image edge is
not shrunk further. -/
lemma clampCropConfig_idem (W H : Int) (c : CropConfig) :
    clampCropConfig W H (clampCropConfig W H c) = clampCropConfig W H c := by
  cases c with
  | mk en x y w h suf =>
    simp only [clampCropConfig]
    by_cases h1 : x + w > W <;> by_cases h2 : y + h > H <;> simp [h1, h2]

/-- With the image present, an enabled `cropImage` call always leaves the
shared config clamped to the metadata dimensions, whether or not the extract
succeeds (the mutation precedes the extract). -/
lemma cropImage_snd (fs : ImageFs) (inPath outPath : String) (c : CropConfig)
    (hen : c.enabled = true) (hex : fs.fileExists inPath = true) :
    (cropImage fs inPath outPath c).2 =
      clampCropConfig ((fs.metaWidth inPath).getD 0)
        ((fs.metaHeight inPath).getD 0) c := by
  simp only [cropImage, hen, hex, not_true, Bool.not_eq_true, ite_false,
    eq_self_iff_true, not_false_iff]
  split <;> rfl

/-- C6 counterexample: a crop rectangle whose origin lies right of the image
(x = 2000 on a 1450-wide image, so `x + width > imageWidth` — the rectangle
exceeds the bounds) is "adjusted" to the negative width `1450 - 2000`; the
sharp extract then raises instead of emitting an output file, so `cropImage`
rethrows rather than clamping to a valid region. -/
theorem cropImage_raises_counterexample :
    cropOutOfOrigin.x + cropOutOfOrigin.width >
      ((fsCrop.metaWidth "screenshots/jupiter-5m.png").getD 0) ∧
    (cropImage fsCrop "screenshots/jupiter-5m.png"
      "screenshots/jupiter-5m-cropped.png" cropOutOfOrigin).1 =
      .error "extract_area: bad extract area" := by
  decide

/-- C6 (amended): for a crop rectangle whose origin lies inside the image
(0 ≤ x < imageWidth, 0 ≤ y < imageHeight) and whose extent on each axis
either exceeds the image (and is clamped) or is a positive in-bounds span,
`cropImage` never raises: it clamps the rectangle to the image bounds and
emits the output file.  This covers every bound-exceeding rectangle with an
in-image origin. -/
theorem cropImage_clamps (fs : ImageFs) (inPath outPath : String)
    (c : CropConfig) (hen : c.enabled = true) (hex : fs.fileExists inPath = true)
    (hx0 : 0 ≤ c.x) (hxW : c.x < (fs.metaWidth inPath).getD 0)
    (hy0 : 0 ≤ c.y) (hyH : c.y < (fs.metaHeight inPath).getD 0)
    (hw : c.x + c.width > (fs.metaWidth inPath).getD 0 ∨
      (1 ≤ c.width ∧ c.x + c.width ≤ (fs.metaWidth inPath).getD 0))
    (hh : c.y + c.height > (fs.metaHeight inPath).getD 0 ∨
      (1 ≤ c.height ∧ c.y + c.height ≤ (fs.metaHeight inPath).getD 0)) :
    cropImage fs inPath outPath c =
      (.ok outPath, clampCropConfig ((fs.metaWidth inPath).getD 0)
        ((fs.metaHeight inPath).getD 0) c) := by
  simp only [cropImage, hen, hex]
  have hf := clampCropConfig_fields ((fs.metaWidth inPath).getD 0)
    ((fs.metaHeight inPath).getD 0) c
  obtain ⟨_, hfx, hfy, _, hfw, hfh⟩ := hf
  have hok : sharpExtractOk ((fs.metaWidth inPath).getD 0)
      ((fs.metaHeight inPath).getD 0)
      (clampCropConfig ((fs.metaWidth inPath).getD 0)
        ((fs.metaHeight inPath).getD 0) c).x
      (clampCropConfig ((fs.metaWidth inPath).getD 0)
        ((fs.metaHeight inPath).getD 0) c).y
      (clampCropConfig ((fs.metaWidth inPath).getD 0)
        ((fs.metaHeight inPath).getD 0) c).width
      (clampCropConfig ((fs.metaWidth inPath).getD 0)
        ((fs.metaHeight inPath).getD 0) c).height = true := by
    rw [hfx, hfy, hfw, hfh]
    simp only [sharpExtractOk, Bool.and_eq_true, decide_eq_true_eq]
    by_cases h1 : c.x + c.width > (fs.metaWidth inPath).getD 0 <;>
      by_cases h2 : c.y + c.height > (fs.metaHeight inPath).getD 0 <;>
      simp only [h1, h2, if_pos, if_neg, if_true, if_false] <;>
      refine ⟨⟨⟨⟨⟨hx0, hy0⟩, ?_⟩, ?_⟩, ?_⟩, ?_⟩ <;> omega
  rw [hok]
  simp

/-- Witness for C6 at a concrete input: a 1500x550 rectangle at (0, 100) on
a 1450x550 image is clamped (width to 1450, height to 450) and the crop
succeeds. -/
theorem cropImage_clamps_witness :
    cropImage fsCrop "screenshots/jupiter-5m.png"
      "screenshots/jupiter-5m-cropped.png" cropExceeding =
      (.ok "screenshots/jupiter-5m-cropped.png",
        clampCropConfig 1450 550 cropExceeding) :=
  cropImage_clamps fsCrop "screenshots/jupiter-5m.png"
    "screenshots/jupiter-5m-cropped.png" cropExceeding rfl rfl
    (by decide) (by decide) (by decide) (by decide)
    (by decide) (by decide)

/-- C10: `cropImage` mutates the caller's `CropConfig` in place — after a
call on an existing image the shared object holds the clamped width/height
(`enabled`, `x`, `y`, `outputSuffix` unchanged) — and
`cropTimeframeScreenshots` passes that same object to every later crop, so
the second and later timeframes are cropped with the already-shrunken
rectangle (clamping is idempotent, so it equals the first call's result). -/
theorem cropImage_mutates_shared_config (fs : ImageFs) (dir : String)
    (c : CropConfig) (W H : Int)
    (hW : ∀ p, fs.metaWidth p = some W) (hH : ∀ p, fs.metaHeight p = some H)
    (hfs : ∀ p, fs.fileExists p = true) (hen : c.enabled = true)
    (tf1 tf2 : String) :
    (∀ iP oP, (cropImage fs iP oP c).2 = clampCropConfig W H c) ∧
    ((clampCropConfig W H c).enabled = c.enabled ∧
      (clampCropConfig W H c).x = c.x ∧
      (clampCropConfig W H c).y = c.y ∧
      (clampCropConfig W H c).outputSuffix = c.outputSuffix ∧
      (clampCropConfig W H c).width =
        (if c.x + c.width > W then W - c.x else c.width) ∧
      (clampCropConfig W H c).height =
        (if c.y + c.height > H then H - c.y else c.height)) ∧
    clampCropConfig W H (clampCropConfig W H c) = clampCropConfig W H c ∧
    (cropTimeframesLoop fs dir c [tf1, tf2]).2 = clampCropConfig W H c := by
  have hsnd : ∀ iP oP, (cropImage fs iP oP c).2 = clampCropConfig W H c := by
    intro iP oP
    rw [cropImage_snd fs iP oP c hen (hfs iP), hW, hH]
    rfl
  refine ⟨hsnd, clampCropConfig_fields W H c, clampCropConfig_idem W H c, ?_⟩
  have hen2 : (clampCropConfig W H c).enabled = true := by
    rw [(clampCropConfig_fields W H c).1]; exact hen
  have hsnd2 : ∀ iP oP, (cropImage fs iP oP (clampCropConfig W H c)).2 =
      clampCropConfig W H c := by
    intro iP oP
    rw [cropImage_snd fs iP oP (clampCropConfig W H c) hen2 (hfs iP), hW, hH]
    simp only [Option.getD_some]
    exact clampCropConfig_idem W H c
  simp only [cropTimeframesLoop, hfs, Bool.not_true, reduceIte]
  cases hc1 : cropImage fs (dir ++ "/jupiter-" ++ tf1 ++ ".png")
      (dir ++ "/jupiter-" ++ tf1 ++ (c.outputSuffix.getD "-cropped") ++ ".png") c with
  | mk r1 c1 =>
    have hc1eq : c1 = clampCropConfig W H c := by
      have hs1 := hsnd (dir ++ "/jupiter-" ++ tf1 ++ ".png")
        (dir ++ "/jupiter-" ++ tf1 ++ (c.outputSuffix.getD "-cropped") ++ ".png")
      rw [hc1] at hs1
      exact hs1
    subst hc1eq
    cases r1 with
    | error e => simp
    | ok p =>
      simp only [cropTimeframesLoop, hfs, Bool.not_true, reduceIte]
      cases hc2 : cropImage fs (dir ++ "/jupiter-" ++ tf2 ++ ".png")
          (dir ++ "/jupiter-" ++ tf2 ++
            ((clampCropConfig W H c).outputSuffix.getD "-cropped") ++ ".png")
          (clampCropConfig W H c) with
      | mk r2 c2 =>
        have hc2eq : c2 = clampCropConfig W H c := by
          have hs2 := hsnd2 (dir ++ "/jupiter-" ++ tf2 ++ ".png")
            (dir ++ "/jupiter-" ++ tf2 ++
              ((clampCropConfig W H c).outputSuffix.getD "-cropped") ++ ".png")
          rw [hc2] at hs2
          exact hs2
        subst hc2eq
        cases r2 with
        | error e => simp
        | ok p2 => simp [cropTimeframesLoop]

/-- Witness for C10 at a concrete input: the default Jupiter rectangle on a
1450x550 image has its height clamped from 550 to 450 on the first crop, and
the shared config object ends the run holding the clamped rectangle. -/
theorem cropImage_mutates_shared_config_witness :
    (cropTimeframesLoop fsCrop "screenshots" DEFAULT_JUPITER_CROP
      ["5m", "15m"]).2 = clampCropConfig 1450 550 DEFAULT_JUPITER_CROP :=
  (cropImage_mutates_shared_config fsCrop "screenshots" DEFAULT_JUPITER_CROP
    1450 550 (fun _ => rfl) (fun _ => rfl) (fun _ => rfl) rfl "5m" "15m").2.2.2

/-- The only reasoning-service calls issued by `analyzeChartImage` are
per-image analysis calls. -/
lemma analyzeChartImage_calls (env : VisionEnv) (p t : String) :
    ∀ call ∈ (analyzeChartImage env p t).2, ∃ tf, call = SvcCall.image tf := by
  intro call hcall
  unfold analyzeChartImage at hcall
  split at hcall
  · simp at hcall
  · split at hcall
    · simp at hcall
      exact ⟨t, hcall⟩
    · split at hcall
      · simp at hcall
        exact ⟨t, hcall⟩
      · split at hcall <;> (simp at hcall; exact ⟨t, hcall⟩)

/-- A successful `analyzeChartImage` result is exactly `JSON.parse`'s output
on the extracted block: the code performs no timeframe validation. -/
lemma analyzeChartImage_ok_parse (env : VisionEnv) (p t : String)
    (a : ChartAnalysis) (h : (analyzeChartImage env p t).1 = .ok a) :
    ∃ s, env.parseChart s = some a := by
  unfold analyzeChartImage at h
  split at h
  · simp at h
  · split at h
    · simp at h
    · split at h
      · simp at h
      · split at h
        · simp at h
        · simp only [Except.ok.injEq] at h
          next s hs => exact ⟨_, hs ▸ congrArg some h⟩

/-- Case analysis on one pipeline run: either some stage threw and the
result is the catch block's failure record, or every stage succeeded and the
result is the success record built from the stage outputs. -/
lemma executeVisionAnalysis_shape (env : VisionEnv) (config : VisionConfig) :
    (∃ e, (executeVisionAnalysis env config).1 = failureResult e) ∨
    (∃ td vc,
      (generateFinalVerdict env config).1 = .ok vc ∧
      (executeVisionAnalysis env config).1.success = true ∧
      (executeVisionAnalysis env config).1.tradingDecision = some td ∧
      (executeVisionAnalysis env config).1.finalVerdict = some vc.1 ∧
      (executeVisionAnalysis env config).1.error = none ∧
      (executeVisionAnalysis env config).1.individualAnalyses =
        ((findImageFiles env (config.screenshotsDir.getD "screenshots")
          (config.timeframes.getD defaultTimeframes)).map
            fun pt => analyzeChartImage env pt.1 pt.2).filterMap
          (fun r => r.1.toOption) ∧
      td.timeframes = (executeVisionAnalysis env config).1.individualAnalyses) := by
  simp only [executeVisionAnalysis]
  split
  · exact Or.inl ⟨_, rfl⟩
  · split
    · exact Or.inl ⟨_, rfl⟩
    · split
      · exact Or.inl ⟨_, rfl⟩
      · split
        · exact Or.inl ⟨_, rfl⟩
        · next td cs1 hdec =>
          split
          · exact Or.inl ⟨_, rfl⟩
          · next comp cs2 hcomp =>
            split
            · exact Or.inl ⟨_, rfl⟩
            · next vc cs3 hverd =>
              split
              · exact Or.inl ⟨_, rfl⟩
              · next u hsnd =>
                refine Or.inr ⟨td, vc, ?_, rfl, rfl, rfl, rfl, rfl, ?_⟩
                · rw [hverd]
                · have hdec2 := hdec
                  unfold makeMultiTimeframeDecision at hdec2
                  split at hdec2
                  · simp at hdec2
                  · split at hdec2
                    · simp at hdec2
                    · split at hdec2
                      · simp at hdec2
                      · simp only [Prod.mk.injEq, Except.ok.injEq] at hdec2
                        rw [← hdec2.1]

/-- C4: when zero per-timeframe analyses succeed, the pipeline fails before
the cross-timeframe decision stage: the result is a failure with an error
message and no decision, and no `decision` reasoning-service call was ever
issued. -/
theorem executeVisionAnalysis_zero_success (env : VisionEnv) (config : VisionConfig)
    (hall : ∀ pt ∈ findImageFiles env (config.screenshotsDir.getD "screenshots")
        (config.timeframes.getD defaultTimeframes),
      (analyzeChartImage env pt.1 pt.2).1.toOption = none) :
    (executeVisionAnalysis env config).1.success = false ∧
    (executeVisionAnalysis env config).1.error.isSome = true ∧
    (executeVisionAnalysis env config).1.tradingDecision = none ∧
    SvcCall.decision ∉ (executeVisionAnalysis env config).2 := by
  have hIA : ((findImageFiles env (config.screenshotsDir.getD "screenshots")
      (config.timeframes.getD defaultTimeframes)).map
        fun pt => analyzeChartImage env pt.1 pt.2).filterMap
      (fun r => r.1.toOption) = [] := by
    apply List.filterMap_eq_nil_iff.mpr
    intro r hr
    obtain ⟨pt, hpt, rfl⟩ := List.mem_map.mp hr
    exact hall pt hpt
  simp only [executeVisionAnalysis]
  split
  · exact ⟨rfl, rfl, rfl, by simp⟩
  · split
    · exact ⟨rfl, rfl, rfl, by simp⟩
    · split
      · refine ⟨rfl, rfl, rfl, ?_⟩
        intro hmem
        rw [List.mem_flatten] at hmem
        obtain ⟨l, hl, hin⟩ := hmem
        rw [List.mem_map] at hl
        obtain ⟨r, hrmem, rfl⟩ := hl
        rw [List.mem_map] at hrmem
        obtain ⟨pt, hpt, rfl⟩ := hrmem
        obtain ⟨tf, htf⟩ := analyzeChartImage_calls env pt.1 pt.2 _ hin
        exact SvcCall.noConfusion htf
      · next hne => exact absurd (by rw [hIA]; rfl) hne

/-- Witness for C4 at a concrete environment: the 5m screenshot exists but
the service returns no content, so its analysis fails; the pipeline fails
with an error and never issues the decision call. -/
theorem executeVisionAnalysis_zero_success_witness :
    (executeVisionAnalysis envC4 cfgOneTimeframe).1.success = false ∧
    (executeVisionAnalysis envC4 cfgOneTimeframe).1.error.isSome = true ∧
    (executeVisionAnalysis envC4 cfgOneTimeframe).1.tradingDecision = none ∧
    SvcCall.decision ∉ (executeVisionAnalysis envC4 cfgOneTimeframe).2 :=
  executeVisionAnalysis_zero_success envC4 cfgOneTimeframe (by decide)

/-- C8: when the schema-constrained call yields no function call, or its
arguments do not parse, `generateFinalVerdict` throws, and the cycle's
pipeline result is a failure: `success = false`, an error message, and no
`finalVerdict` — no default verdict is substituted. -/
theorem generateFinalVerdict_no_structured_response (env : VisionEnv)
    (config : VisionConfig)
    (hv : env.verdictFunctionCall = none ∨
      ∃ s, env.verdictFunctionCall = some s ∧ env.parseVerdict s = none) :
    (∃ e, (generateFinalVerdict env config).1 = .error e) ∧
    (executeVisionAnalysis env config).1.success = false ∧
    (executeVisionAnalysis env config).1.finalVerdict = none ∧
    (executeVisionAnalysis env config).1.error.isSome = true := by
  have herr : ∃ e, (generateFinalVerdict env config).1 = .error e := by
    rcases hv with hnone | ⟨s, hs, hp⟩
    · exact ⟨"No function call response from OpenAI",
        by simp [generateFinalVerdict, hnone]⟩
    · exact ⟨"Unexpected token in JSON",
        by simp [generateFinalVerdict, hs, hp]⟩
  refine ⟨herr, ?_⟩
  rcases executeVisionAnalysis_shape env config with ⟨e, he⟩ |
    ⟨td, vc, hok, _, _, _, _, _, _⟩
  · rw [he]
    exact ⟨rfl, rfl, rfl⟩
  · obtain ⟨e, he2⟩ := herr
    rw [hok] at he2
    exact absurd he2 (by simp)

/-- Witness for C8 at a concrete environment: every earlier stage would
succeed, but the function call is missing; the pipeline fails with no
verdict. -/
theorem generateFinalVerdict_no_structured_response_witness :
    (∃ e, (generateFinalVerdict envC8 cfgOneTimeframe).1 = .error e) ∧
    (executeVisionAnalysis envC8 cfgOneTimeframe).1.success = false ∧
    (executeVisionAnalysis envC8 cfgOneTimeframe).1.finalVerdict = none ∧
    (executeVisionAnalysis envC8 cfgOneTimeframe).1.error.isSome = true :=
  generateFinalVerdict_no_structured_response envC8 cfgOneTimeframe (Or.inl rfl)

/-- A catch whose handler resolves makes the whole try/catch resolve. -/
lemma tryCatchE_ok_unit (b : Except String Unit) :
    tryCatchE b (fun _ => .ok ()) = .ok () := by
  cases b with
  | ok u => cases u; rfl
  | error e => rfl

/-- `playTradingSound` resolves for every sound environment: each fallible
operation is caught somewhere in the cascade. -/
lemma playTradingSound_ok (senv : SoundEnv) (action : TradingAction)
    (config : SoundConfig) : playTradingSound senv action config = .ok () := by
  unfold playTradingSound
  split
  · rfl
  · exact tryCatchE_ok_unit _

/-- `playTradingAlert` resolves for every sound environment. -/
lemma playTradingAlert_ok (senv : SoundEnv) (action : TradingAction)
    (conf : ℚ) (reason : String) :
    playTradingAlert senv action conf reason = .ok () := by
  simp only [playTradingAlert, playTradingSound_ok, Except.bind, ite_self]

/-- C9: a failure of the notification side effect never fails the Vision
Pipeline: `playTradingAlert` resolves under EVERY outcome of the sound
operations (missing custom file, failing player subprocess, unknown
platform), and the whole pipeline result — including `success` and the
computed verdict — is identical under any two sound environments. -/
theorem soundFailure_never_fails_pipeline :
    (∀ (senv : SoundEnv) (action : TradingAction) (conf : ℚ) (reason : String),
      playTradingAlert senv action conf reason = .ok ()) ∧
    (∀ (envBase : VisionEnv) (config : VisionConfig) (s1 s2 : SoundEnv),
      executeVisionAnalysis { envBase with sound := s1 } config =
      executeVisionAnalysis { envBase with sound := s2 } config) := by
  refine ⟨playTradingAlert_ok, ?_⟩
  intro envBase config s1 s2
  have hsr : ∀ (senv : SoundEnv) (act : TradingAction) (c : ℚ) (r : String)
      (sfx : Option Bool),
      (if sfx = some false then Except.ok () else playTradingAlert senv act c r) =
        .ok () := by
    intro senv act c r sfx
    split
    · rfl
    · exact playTradingAlert_ok senv act c r
  cases envBase with
  | mk a f ci pc cd pd cc pcc vf pv cp vp snd =>
    simp only [executeVisionAnalysis, hsr]
    rfl

/-- C7 (amended): the analyses carried by the pipeline's output are never
more numerous than the requested timeframes, the decision's `timeframes`
list is exactly the successful-analysis list (failures excluded, never
fabricated); and each analysis's `timeframe` label belongs to the requested
set PROVIDED the reasoning service echoes a requested label in its JSON —
the code itself never validates it. -/
theorem executeVisionAnalysis_timeframe_invariant (env : VisionEnv)
    (config : VisionConfig) (tfs : List String)
    (htf : config.timeframes = some tfs) :
    (executeVisionAnalysis env config).1.individualAnalyses.length ≤ tfs.length ∧
    (∀ d, (executeVisionAnalysis env config).1.tradingDecision = some d →
      d.timeframes = (executeVisionAnalysis env config).1.individualAnalyses) ∧
    ((∀ s a, env.parseChart s = some a → a.timeframe ∈ tfs) →
      ∀ a ∈ (executeVisionAnalysis env config).1.individualAnalyses,
        a.timeframe ∈ tfs) := by
  rcases executeVisionAnalysis_shape env config with ⟨e, he⟩ |
    ⟨td, vc, hok, hsucc, hdec, hfv, herr, hIA, htd⟩
  · rw [he]
    refine ⟨by simp [failureResult], ?_, ?_⟩
    · intro d hd
      simp [failureResult] at hd
    · intro _ a ha
      simp [failureResult] at ha
  · refine ⟨?_, ?_, ?_⟩
    · rw [hIA, htf]
      calc (((findImageFiles env (config.screenshotsDir.getD "screenshots")
            ((some tfs).getD defaultTimeframes)).map
              fun pt => analyzeChartImage env pt.1 pt.2).filterMap
            (fun r => r.1.toOption)).length
          ≤ ((findImageFiles env (config.screenshotsDir.getD "screenshots")
            ((some tfs).getD defaultTimeframes)).map
              fun pt => analyzeChartImage env pt.1 pt.2).length :=
            List.length_filterMap_le _ _
        _ = (findImageFiles env (config.screenshotsDir.getD "screenshots")
            ((some tfs).getD defaultTimeframes)).length := List.length_map _ _
        _ ≤ tfs.length := by
            show (List.filterMap _ tfs).length ≤ tfs.length
            exact List.length_filterMap_le _ _
    · intro d hd
      rw [hdec] at hd
      cases hd
      rw [htd]
    · intro hecho a ha
      rw [hIA] at ha
      obtain ⟨r, hr, hsome⟩ := List.mem_filterMap.mp ha
      obtain ⟨pt, hpt, rfl⟩ := List.mem_map.mp hr
      have hok2 : (analyzeChartImage env pt.1 pt.2).1 = .ok a := by
        cases hx : (analyzeChartImage env pt.1 pt.2).1 with
        | ok b => rw [hx] at hsome; simp [Except.toOption] at hsome; rw [hsome]
        | error e => rw [hx] at hsome; simp [Except.toOption] at hsome
      obtain ⟨s, hp⟩ := analyzeChartImage_ok_parse env pt.1 pt.2 a hok2
      exact hecho s a hp

/-- Witness for C7 at a concrete environment whose service echoes the
prompted timeframe: every output analysis is labelled with a requested
timeframe. -/
theorem executeVisionAnalysis_timeframe_invariant_witness :
    (executeVisionAnalysis envC7ok cfgOneTimeframe).1.individualAnalyses.length ≤
      (["5m"] : List String).length ∧
    analysis5m.timeframe ∈ ["5m"] :=
  ⟨(executeVisionAnalysis_timeframe_invariant envC7ok cfgOneTimeframe ["5m"]
      rfl).1,
   (executeVisionAnalysis_timeframe_invariant envC7ok cfgOneTimeframe ["5m"]
      rfl).2.2 (fun _ a h => Option.some.inj h ▸ (by decide)) analysis5m
      (by decide)⟩

/-- C7 counterexample: the code never checks the parsed `timeframe` field,
so a service response labelled "1w" flows into the output of a cycle that
requested only "5m": the pipeline succeeds and its analysis list carries a
timeframe outside the requested set. -/
theorem executeVisionAnalysis_foreign_timeframe_counterexample :
    (executeVisionAnalysis envC7 cfgOneTimeframe).1.success = true ∧
    (executeVisionAnalysis envC7 cfgOneTimeframe).1.individualAnalyses.map
      (·.timeframe) = ["1w"] ∧
    ¬ ("1w" ∈ ["5m"]) := by
  decide

end Quant
